import Mathlib

/-!
Shallow embedding of the qonaqai pricing engine core
(`src/pricing-engine/*.ts`) over exact rational arithmetic, together with
theorems settling the frozen specification claims.

JavaScript numbers are modelled as rationals; `Math.round` is the
half-toward-positive-infinity rounding JS uses.  The two transcendental
library calls the engine makes (`Math.sin` inside the synthetic trend
momentum, `Math.exp` / `Math.log` inside the confidence model and the
event-impact normalisation) are abstracted as explicit function
parameters, universally quantified in every theorem, so each theorem
holds for the genuine transcendental functions in particular.
-/

namespace Qonaq

/-- JS `Math.round`: rounds half toward positive infinity. -/
def jsRound (q : ℚ) : ℤ := Int.floor (q + 1/2)

/-- JS `Math.round(x * 10) / 10`: round to one decimal place. -/
def round1 (q : ℚ) : ℚ := (jsRound (q * 10) : ℚ) / 10

/-- JS `Math.round(x * 100) / 100`: round to two decimal places. -/
def round2 (q : ℚ) : ℚ := (jsRound (q * 100) : ℚ) / 100

/-- JS `Math.round(x * 1000) / 1000`: round to three decimal places. -/
def round3 (q : ℚ) : ℚ := (jsRound (q * 1000) : ℚ) / 1000

/-- The observations the engine makes of a JS `Date` value: epoch
milliseconds (`getTime`), month (`getMonth`, 0–11), day of week
(`getDay`, 0=Sunday), and the ISO date string
(`toISOString().slice(0, 10)`), carried as data. -/
structure JsDate where
  ms : ℤ
  month : Fin 12
  dayOfWeek : Fin 7
  iso : String

lemma jsRound_intCast (n : ℤ) : jsRound (n : ℚ) = n := by
  unfold jsRound
  rw [Int.floor_eq_iff]
  constructor <;> [push_cast; push_cast] <;> linarith

lemma jsRound_mono : Monotone jsRound := by
  intro a b h
  exact Int.floor_le_floor (by linarith)

lemma jsRound_le (q : ℚ) : (jsRound q : ℚ) ≤ q + 1/2 := Int.floor_le _

lemma lt_jsRound (q : ℚ) : q - 1/2 < (jsRound q : ℚ) := by
  have := Int.lt_floor_add_one (q + 1/2)
  unfold jsRound
  linarith

lemma jsRound_eq (q : ℚ) (n : ℤ) (h1 : (n : ℚ) ≤ q + 1/2) (h2 : q + 1/2 < n + 1) :
    jsRound q = n := by
  unfold jsRound
  rw [Int.floor_eq_iff]
  exact ⟨by exact_mod_cast h1, by exact_mod_cast h2⟩

end Qonaq

namespace Qonaq.PriceOptimizer

/-- `pricingTier` string union of `priceOptimizer.ts`. -/
inductive PricingTier
  | discount
  | base
  | premium
  | surge
  | saturation
deriving DecidableEq, Repr

/-- `PriceRecommendation` of `priceOptimizer.ts` (saturation-capable version). -/
structure PriceRecommendation where
  recommendedPrice : ℤ
  minPrice : ℤ
  maxPrice : ℤ
  priceMultiplier : ℚ
  pricingTier : PricingTier
  isSaturated : Bool
  saturationBoost : ℚ

/-- `PricingConfig` of `priceOptimizer.ts`; optional fields are `Option`
and the TypeScript destructuring defaults are applied in `calculatePrice`. -/
structure PricingConfig where
  basePrice : ℚ
  floorMultiplier : Option ℚ := none
  ceilingMultiplier : Option ℚ := none
  minSpread : Option ℚ := none
  maxSpread : Option ℚ := none
  saturationThreshold : Option ℚ := none
  projectedOccupancy : Option ℚ := none

/-- `demandToMultiplier` of `priceOptimizer.ts`: tiered multiplier curve,
linearly interpolated within each band. -/
def demandToMultiplier (demandScore : ℚ) : ℚ × PricingTier :=
  if demandScore < 50 then
    (0.80 + demandScore / 50 * 0.10, PricingTier.discount)
  else if demandScore ≤ 70 then
    (0.95 + (demandScore - 50) / 20 * 0.10, PricingTier.base)
  else if demandScore ≤ 85 then
    (1.10 + (demandScore - 70) / 15 * 0.15, PricingTier.premium)
  else
    (1.30 + min ((demandScore - 85) / 15) 1 * 0.20, PricingTier.surge)

/-- The mutable saturation-override block of `calculatePrice`
(lines 86–97): returns (multiplier, tier, isSaturated, saturationBoost)
after the demand-saturation cap has been applied. -/
def applySaturation (saturationThreshold : ℚ) (projectedOccupancy : Option ℚ)
    (m : ℚ × PricingTier) : ℚ × PricingTier × Bool × ℚ :=
  match projectedOccupancy with
  | some po =>
    if saturationThreshold < po then
      let saturationExcess := (po - saturationThreshold) / (100 - saturationThreshold)
      let saturationBoost := saturationExcess * 0.20
      (m.1 * (1 + saturationBoost), PricingTier.saturation, true, saturationBoost)
    else (m.1, m.2, false, 0)
  | none => (m.1, m.2, false, 0)

/-- `calculatePrice` of `priceOptimizer.ts` (saturation-capable version). -/
def calculatePrice (demandScore : ℚ) (config : PricingConfig) : PriceRecommendation :=
  let basePrice := config.basePrice
  let floorMultiplier := config.floorMultiplier.getD 0.70
  let ceilingMultiplier := config.ceilingMultiplier.getD 1.80
  let minSpread := config.minSpread.getD 0.15
  let maxSpread := config.maxSpread.getD 0.20
  let saturationThreshold := config.saturationThreshold.getD 95
  let s := applySaturation saturationThreshold config.projectedOccupancy
    (demandToMultiplier demandScore)
  let multiplier := s.1
  let tier := s.2.1
  let isSaturated := s.2.2.1
  let saturationBoost := s.2.2.2
  let rawPrice := basePrice * multiplier
  let floor := basePrice * floorMultiplier
  let ceiling := basePrice * ceilingMultiplier
  let recommendedPrice := jsRound (max floor (min ceiling rawPrice))
  let minPrice := jsRound (max floor ((recommendedPrice : ℚ) * (1 - minSpread)))
  let maxPrice := jsRound (min ceiling ((recommendedPrice : ℚ) * (1 + maxSpread)))
  { recommendedPrice := recommendedPrice
    minPrice := minPrice
    maxPrice := maxPrice
    priceMultiplier := round3 multiplier
    pricingTier := tier
    isSaturated := isSaturated
    saturationBoost := round3 saturationBoost }

end Qonaq.PriceOptimizer

namespace Qonaq.ElasticityModel

/-- `ElasticityConfig` of `elasticityModel.ts`. -/
structure ElasticityConfig where
  elasticityK : Option ℚ := none
  elasticityCoefficient : Option ℚ := none
  occupancyFloor : Option ℚ := none
  occupancyCeiling : Option ℚ := none
  useNonLinear : Option Bool := none

/-- `ElasticityResult` of `elasticityModel.ts`. -/
structure ElasticityResult where
  projectedOccupancy : ℚ
  occupancyChange : ℚ
  priceChangePercent : ℚ
  elasticityCoefficient : ℚ
  isNonLinear : Bool

/-- `calculateElasticity` of `elasticityModel.ts`: projected occupancy for
a manual price versus the recommended price, with a quadratic (default)
or legacy linear response.  A total function: the degenerate
`recommendedPrice = 0` input takes the early-return branch. -/
def calculateElasticity (baseOccupancy recommendedPrice manualPrice : ℚ)
    (config : ElasticityConfig) : ElasticityResult :=
  let elasticityK := config.elasticityK.getD 0.004
  let elasticityCoefficient := config.elasticityCoefficient.getD (-0.4)
  let occupancyFloor := config.occupancyFloor.getD 15
  let occupancyCeiling := config.occupancyCeiling.getD 98
  let useNonLinear := config.useNonLinear.getD true
  if recommendedPrice = 0 then
    { projectedOccupancy := baseOccupancy
      occupancyChange := 0
      priceChangePercent := 0
      elasticityCoefficient := if useNonLinear then elasticityK else elasticityCoefficient
      isNonLinear := useNonLinear }
  else
    let priceChangePercent := (manualPrice - recommendedPrice) / recommendedPrice * 100
    let occupancyChangePoints :=
      if useNonLinear then
        (if 0 ≤ priceChangePercent then (-1 : ℚ) else 1) * elasticityK
          * priceChangePercent * priceChangePercent
      else
        elasticityCoefficient * priceChangePercent
    let rawOccupancy := baseOccupancy + occupancyChangePoints
    let projectedOccupancy :=
      max occupancyFloor (min occupancyCeiling ((jsRound rawOccupancy : ℤ) : ℚ))
    { projectedOccupancy := projectedOccupancy
      occupancyChange := round1 occupancyChangePoints
      priceChangePercent := round1 priceChangePercent
      elasticityCoefficient := if useNonLinear then elasticityK else elasticityCoefficient
      isNonLinear := useNonLinear }

end Qonaq.ElasticityModel

namespace Qonaq.DemandModel

/-- Event types: the keys of `EVENT_IMPACTS` in the weighted demand model
of `forecastAccuracy.ts`. -/
inductive EventType
  | conference
  | festival
  | sports
  | holiday
  | trade_fair
  | concert
  | none
deriving DecidableEq, Repr

/-- `SEASONALITY_FACTORS` lookup (Jan=0 … Dec=11); the catch-all arm is
month 11 (December), the only value a `Fin 12` index can reach there. -/
def SEASONALITY_FACTORS (month : Fin 12) : ℚ :=
  match month.val with
  | 0 => 0.75
  | 1 => 0.80
  | 2 => 0.88
  | 3 => 0.95
  | 4 => 1.05
  | 5 => 1.15
  | 6 => 1.25
  | 7 => 1.25
  | 8 => 1.10
  | 9 => 1.00
  | 10 => 0.82
  | _ => 0.85

/-- `WEEKDAY_FACTORS` lookup (0=Sun … 6=Sat); the catch-all arm is day 6
(Saturday), the only value a `Fin 7` index can reach there. -/
def WEEKDAY_FACTORS (dayOfWeek : Fin 7) : ℚ :=
  match dayOfWeek.val with
  | 0 => 0.90
  | 1 => 0.78
  | 2 => 0.80
  | 3 => 0.85
  | 4 => 0.92
  | 5 => 1.15
  | _ => 1.12

/-- `EVENT_IMPACTS` lookup of the weighted demand model. -/
def EVENT_IMPACTS : EventType → ℚ
  | EventType.conference => 1.18
  | EventType.festival => 1.25
  | EventType.sports => 1.15
  | EventType.holiday => 1.12
  | EventType.trade_fair => 1.20
  | EventType.concert => 1.10
  | EventType.none => 1.00

/-- `EventData` of the weighted demand model. -/
structure EventData where
  dayOffset : ℤ
  type : EventType
  name : String

/-- `SCHEDULED_EVENTS` calendar of the weighted demand model. -/
def SCHEDULED_EVENTS : List EventData :=
  [⟨3, EventType.conference, "Tech Conference"⟩,
   ⟨7, EventType.sports, "City Marathon"⟩,
   ⟨14, EventType.festival, "Music Festival"⟩,
   ⟨15, EventType.festival, "Music Festival"⟩,
   ⟨21, EventType.trade_fair, "Trade Fair"⟩,
   ⟨22, EventType.trade_fair, "Trade Fair"⟩,
   ⟨25, EventType.holiday, "National Holiday"⟩]

/-- `DemandWeights` of the weighted demand model. -/
structure DemandWeights where
  weekdayAvg : ℚ
  trend7Day : ℚ
  seasonality30Day : ℚ
  eventStrength : ℚ
  bookingPace : ℚ

/-- `DEFAULT_DEMAND_WEIGHTS` of the weighted demand model. -/
def DEFAULT_DEMAND_WEIGHTS : DemandWeights :=
  { weekdayAvg := 0.30
    trend7Day := 0.20
    seasonality30Day := 0.20
    eventStrength := 0.15
    bookingPace := 0.15 }

/-- TypeScript `Partial<DemandWeights>`. -/
structure PartialDemandWeights where
  weekdayAvg : Option ℚ := none
  trend7Day : Option ℚ := none
  seasonality30Day : Option ℚ := none
  eventStrength : Option ℚ := none
  bookingPace : Option ℚ := none

/-- The spread `{ ...DEFAULT_DEMAND_WEIGHTS, ...config.weights }`:
fields present in the partial override the defaults. -/
def mergeWeights (p : PartialDemandWeights) : DemandWeights :=
  { weekdayAvg := p.weekdayAvg.getD DEFAULT_DEMAND_WEIGHTS.weekdayAvg
    trend7Day := p.trend7Day.getD DEFAULT_DEMAND_WEIGHTS.trend7Day
    seasonality30Day := p.seasonality30Day.getD DEFAULT_DEMAND_WEIGHTS.seasonality30Day
    eventStrength := p.eventStrength.getD DEFAULT_DEMAND_WEIGHTS.eventStrength
    bookingPace := p.bookingPace.getD DEFAULT_DEMAND_WEIGHTS.bookingPace }

/-- `DemandModelConfig` of the weighted demand model. -/
structure DemandModelConfig where
  baseOccupancy : ℚ
  trendMomentum : Option ℚ := none
  weights : PartialDemandWeights := {}
  historicalWeekdayAvg : Option ℚ := none
  historicalTrend7Day : Option ℚ := none
  historicalSeasonality30Day : Option ℚ := none
  bookingPaceVelocity : Option ℚ := none
  externalSignalScore : Option ℚ := none

/-- The five weighted component scores (0–100 each) of `DemandResult`. -/
structure DemandComponents where
  weekdayAvgScore : ℤ
  trendScore : ℤ
  seasonalityScore : ℤ
  eventScore : ℤ
  bookingPaceScore : ℤ

/-- `DemandResult` of the weighted demand model. -/
structure DemandResult where
  demandScore : ℤ
  seasonalityFactor : ℚ
  weekdayFactor : ℚ
  eventMultiplier : ℚ
  trendFactor : ℚ
  bookingPaceVelocity : ℚ
  externalSignalScore : ℚ
  event : Option String
  components : DemandComponents
  weights : DemandWeights

/-- `calculateTrendMomentum` of the weighted demand model.  `sinCycle`
abstracts the transcendental `Math.sin(dayOffset * Math.PI / 30)` as a
function of the day offset. -/
def calculateTrendMomentum (sinCycle : ℤ → ℚ) (dayOffset : ℤ) : ℚ :=
  1 + sinCycle dayOffset * 0.06

/-- `multiplierToScore` of the weighted demand model. -/
def multiplierToScore (multiplier baseOccupancy : ℚ) : ℤ :=
  max 0 (min 100 (jsRound (baseOccupancy * multiplier * 100)))

/-- `calculateBookingPaceVelocity` of the weighted demand model. -/
def calculateBookingPaceVelocity (dayOffset : ℤ) (trendFactor : ℚ)
    (provided : Option ℚ) : ℚ :=
  match provided with
  | some p => max (-1) (min 1 p)
  | none =>
    let leadTimeFactor := max 0 (1 - (dayOffset : ℚ) / 30)
    let pace := (trendFactor - 1) * 3 * leadTimeFactor
    max (-1) (min 1 (round2 pace))

/-- `calculateDemandScore` of `forecastAccuracy.ts` (the weighted
multi-factor demand model).  `sinCycle` abstracts
`Math.sin(dayOffset * Math.PI / 30)`. -/
def calculateDemandScore (sinCycle : ℤ → ℚ) (date : JsDate) (dayOffset : ℤ)
    (config : DemandModelConfig) : DemandResult :=
  let w := mergeWeights config.weights
  let seasonalityFactor := SEASONALITY_FACTORS date.month
  let weekdayFactor := WEEKDAY_FACTORS date.dayOfWeek
  let scheduledEvent := SCHEDULED_EVENTS.find? (fun e => e.dayOffset == dayOffset)
  let eventType := (scheduledEvent.map (fun e => e.type)).getD EventType.none
  let eventMultiplier := EVENT_IMPACTS eventType
  let trendFactor := config.trendMomentum.getD (calculateTrendMomentum sinCycle dayOffset)
  let bookingPaceVelocity :=
    calculateBookingPaceVelocity dayOffset trendFactor config.bookingPaceVelocity
  let weekdayAvgOcc := config.historicalWeekdayAvg.getD (config.baseOccupancy * weekdayFactor)
  let weekdayAvgScore := max 0 (min 100 (jsRound (weekdayAvgOcc * 100)))
  let trend7Day := config.historicalTrend7Day.getD trendFactor
  let trendScore := multiplierToScore trend7Day config.baseOccupancy
  let seasonality30Day := config.historicalSeasonality30Day.getD seasonalityFactor
  let seasonalityScore := multiplierToScore seasonality30Day config.baseOccupancy
  let eventScore := jsRound (min 100 ((eventMultiplier - 1) * 400))
  let bookingPaceScore := jsRound (max 0 (min 100 ((bookingPaceVelocity + 1) * 50)))
  let externalSignalScore := config.externalSignalScore.getD 0
  let baseWeighted :=
    w.weekdayAvg * (weekdayAvgScore : ℚ) +
    w.trend7Day * (trendScore : ℚ) +
    w.seasonality30Day * (seasonalityScore : ℚ) +
    w.eventStrength * (eventScore : ℚ) +
    w.bookingPace * (bookingPaceScore : ℚ)
  let historicalCenter := config.baseOccupancy * 100
  let normalizedBase := 50 + (baseWeighted - historicalCenter)
  let demandScore := max 0 (min 100 (jsRound (normalizedBase + externalSignalScore)))
  { demandScore := demandScore
    seasonalityFactor := seasonalityFactor
    weekdayFactor := weekdayFactor
    eventMultiplier := eventMultiplier
    trendFactor := round3 trendFactor
    bookingPaceVelocity := bookingPaceVelocity
    externalSignalScore := externalSignalScore
    event := scheduledEvent.map (fun e => e.name)
    components :=
      { weekdayAvgScore := weekdayAvgScore
        trendScore := trendScore
        seasonalityScore := seasonalityScore
        eventScore := eventScore
        bookingPaceScore := bookingPaceScore }
    weights := w }

/-- The weighted sum of the five component scores under a weight set, as
the specification describes it. -/
def weightedSum (w : DemandWeights) (c : DemandComponents) : ℚ :=
  w.weekdayAvg * (c.weekdayAvgScore : ℚ) +
  w.trend7Day * (c.trendScore : ℚ) +
  w.seasonality30Day * (c.seasonalityScore : ℚ) +
  w.eventStrength * (c.eventScore : ℚ) +
  w.bookingPace * (c.bookingPaceScore : ℚ)

end Qonaq.DemandModel

namespace Qonaq.ConfidenceModel

/-- `ConfidenceConfig` of the six-factor confidence model. -/
structure ConfidenceConfig where
  historicalStability : Option ℚ := none
  forecastHorizon : Option ℚ := none
  dataPointCount : Option ℚ := none
  minDataForFullConfidence : Option ℚ := none
  occupancyVolatility : Option ℚ := none

/-- `ConfidenceResult` of the six-factor confidence model. -/
structure ConfidenceResult where
  confidence : ℤ
  dataCompleteness : ℚ
  eventSignalStrength : ℚ
  historicalStability : ℚ
  trendConsistency : ℚ
  dataVolumeScore : ℚ
  volatilityScore : ℚ

/-- `calcDataCompleteness`: `Math.exp(-1.0 * dayOffset / horizon)`; `jexp`
abstracts the transcendental `Math.exp`. -/
def calcDataCompleteness (jexp : ℚ → ℚ) (dayOffset horizon : ℚ) : ℚ :=
  jexp (-1 * dayOffset / horizon)

/-- `calcEventSignalStrength` of the confidence model. -/
def calcEventSignalStrength (hasEvent : Bool) (eventMultiplier : ℚ) : ℚ :=
  if hasEvent then min 1 (0.70 + (eventMultiplier - 1) * 2) else 0.60

/-- `calcTrendConsistency` of the confidence model. -/
def calcTrendConsistency (trendFactor : ℚ) : ℚ :=
  max 0.3 (1 - |trendFactor - 1| * 5)

/-- `calcDataVolumeScore` of the confidence model; `jlog` abstracts the
transcendental `Math.log`. -/
def calcDataVolumeScore (jlog : ℚ → ℚ) (dataPoints minForFull : ℚ) : ℚ :=
  if dataPoints = 0 then 0.2
  else if minForFull ≤ dataPoints then 1
  else min 1 (0.2 + 0.8 * jlog (1 + dataPoints) / jlog (1 + minForFull))

/-- `calcVolatilityScore` of the confidence model. -/
def calcVolatilityScore (volatility : Option ℚ) : ℚ :=
  match volatility with
  | Option.none => 0.65
  | some v => max 0.30 (1 - v * 3.5)

/-- `calculateConfidence` of the six-factor confidence model.  `jexp` and
`jlog` abstract `Math.exp` and `Math.log`. -/
def calculateConfidence (jexp jlog : ℚ → ℚ) (dayOffset : ℚ) (hasEvent : Bool)
    (eventMultiplier trendFactor : ℚ) (config : ConfidenceConfig) : ConfidenceResult :=
  let historicalStability := config.historicalStability.getD 0.75
  let forecastHorizon := config.forecastHorizon.getD 30
  let dataPointCount := config.dataPointCount.getD 0
  let minDataForFullConfidence := config.minDataForFullConfidence.getD 90
  let dataCompleteness := calcDataCompleteness jexp dayOffset forecastHorizon
  let eventSignalStrength := calcEventSignalStrength hasEvent eventMultiplier
  let trendConsistency := calcTrendConsistency trendFactor
  let dataVolumeScore := calcDataVolumeScore jlog dataPointCount minDataForFullConfidence
  let volatilityScore := calcVolatilityScore config.occupancyVolatility
  let weightedScore :=
    dataCompleteness * 0.25 +
    eventSignalStrength * 0.10 +
    historicalStability * 0.15 +
    trendConsistency * 0.10 +
    dataVolumeScore * 0.25 +
    volatilityScore * 0.15
  let confidence := max 0 (min 100 (jsRound (weightedScore * 100)))
  { confidence := confidence
    dataCompleteness := round2 dataCompleteness
    eventSignalStrength := round2 eventSignalStrength
    historicalStability := historicalStability
    trendConsistency := round2 trendConsistency
    dataVolumeScore := round2 dataVolumeScore
    volatilityScore := round2 volatilityScore }

end Qonaq.ConfidenceModel

namespace Qonaq.MarketSignals

/-- `LocalEvent` of the external market signals layer. -/
structure LocalEvent where
  name : String
  category : String
  estimatedAttendance : ℚ
  date : String

/-- `WeatherData` of the external market signals layer. -/
structure WeatherData where
  temperature : ℚ
  rainProbability : ℚ
  condition : String

/-- `CompetitorRate` of the external market signals layer. -/
structure CompetitorRate where
  competitor_name : String
  price : ℚ

/-- `ExternalSignalResult` of the external market signals layer. -/
structure ExternalSignalResult where
  eventImpact : ℚ
  weatherImpact : ℚ
  competitorImpact : ℚ
  totalScore : ℚ
  weatherAvailable : Bool
  eventsAvailable : Bool
deriving DecidableEq

/-- `EVENT_CATEGORY_WEIGHTS` lookup with its `?? other` fallback. -/
def eventCategoryWeight (category : String) : ℚ :=
  if category = "conference" then 1.2
  else if category = "concert" then 1.1
  else if category = "sports" then 1.15
  else if category = "festival" then 1.25
  else if category = "trade_fair" then 1.2
  else if category = "holiday" then 1.12
  else if category = "meetup" then 0.6
  else 0.8

/-- `getEventImpact(date, events)` of the external market signals layer;
`jlog` abstracts the transcendental `Math.log`. -/
def getEventImpact (jlog : ℚ → ℚ) (date : JsDate) (events : List LocalEvent) : ℚ :=
  let dayEvents := events.filter (fun e => e.date == date.iso)
  if dayEvents.length = 0 then 0
  else
    let totalScore := dayEvents.foldl
      (fun s evt => s + jlog (max 0 evt.estimatedAttendance + 1)
        * eventCategoryWeight evt.category.toLower) 0
    min 10 (max 0 (round1 (totalScore / 9)))

/-- `computeWeatherImpact` of the external market signals layer; the
`Option` input models the `undefined` a JS out-of-bounds array read
produces, which the source handles with an early `return 0`. -/
def computeWeatherImpact (weather : Option WeatherData) (date : JsDate) : ℚ :=
  match weather with
  | Option.none => 0
  | some w =>
    let isWeekend := date.dayOfWeek.val = 0 ∨ date.dayOfWeek.val = 6
    if w.condition = "Thunderstorm" ∨ w.condition = "Snow" ∨ w.condition = "Extreme" then
      -5
    else
      let impact : ℚ :=
        if 0.7 < w.rainProbability ∧ isWeekend then -3
        else if 0.5 < w.rainProbability then -1
        else 0
      let impact2 : ℚ :=
        if 18 ≤ w.temperature ∧ w.temperature ≤ 28 ∧ isWeekend ∧ w.rainProbability < 0.3 then
          max impact 2
        else impact
      max (-5) (min 5 impact2)

/-- `getWeatherImpact(date, weatherData)` of the external market signals
layer.  The source reads the wall clock (`new Date()` zeroed to local
midnight) to pick the weather record by day offset; `todayMs` makes that
hidden clock read an explicit parameter of the embedding. -/
def getWeatherImpact (todayMs : ℤ) (date : JsDate) (weatherData : List WeatherData) : ℚ :=
  if weatherData.length = 0 then 0
  else
    let dayOffset : ℤ := Int.floor (((date.ms - todayMs : ℤ) : ℚ) / 86400000)
    let idx : ℤ := min dayOffset ((weatherData.length : ℤ) - 1)
    let weather : Option WeatherData :=
      if idx < 0 then Option.none else weatherData[idx.toNat]?
    computeWeatherImpact weather date

/-- `getCompetitorImpact` of the external market signals layer. -/
def getCompetitorImpact (hotelPrice : ℚ) (competitorRates : List CompetitorRate) : ℚ :=
  if competitorRates.length = 0 then 0
  else
    let marketAvg := (competitorRates.foldl (fun s c => s + c.price) 0)
      / (competitorRates.length : ℚ)
    if marketAvg = 0 then 0
    else
      let diff := (marketAvg - hotelPrice) / marketAvg
      let score := round1 (diff * 25)
      max (-5) (min 5 score)

/-- `getExternalSignalScore(date, hotelPrice, competitorRates,
weatherData, events)` of the external market signals layer; `jlog`
abstracts `Math.log` and `todayMs` the wall-clock read inside
`getWeatherImpact`. -/
def getExternalSignalScore (jlog : ℚ → ℚ) (todayMs : ℤ) (date : JsDate)
    (hotelPrice : ℚ) (competitorRates : List CompetitorRate)
    (weatherData : List WeatherData) (events : List LocalEvent) : ExternalSignalResult :=
  let eventImpact := getEventImpact jlog date events
  let weatherImpact := getWeatherImpact todayMs date weatherData
  let competitorImpact := getCompetitorImpact hotelPrice competitorRates
  let weatherShifted := weatherImpact + 5
  let competitorShifted := competitorImpact + 5
  let raw := eventImpact + weatherShifted + competitorShifted
  let totalScore := max 0 (min 20 (round1 raw))
  { eventImpact := eventImpact
    weatherImpact := weatherImpact
    competitorImpact := competitorImpact
    totalScore := totalScore
    weatherAvailable := decide (0 < weatherData.length)
    eventsAvailable := decide (0 < events.length) }

end Qonaq.MarketSignals

namespace Qonaq

open PriceOptimizer ElasticityModel DemandModel ConfidenceModel MarketSignals

/-- C1: for every calendar date, day offset, and demand-model
configuration, `calculateDemandScore` computes its final score by
re-centering the weighted component sum:
`demandScore = clamp(round(50 + (weightedSum - baseOccupancy*100) +
externalSignalScore), 0, 100)`, where `weightedSum` is the weighted sum
of the five component scores under the configured weights, and
`externalSignalScore` defaults to 0 when not supplied. -/
theorem claim_C1 (sinCycle : ℤ → ℚ) (date : JsDate) (dayOffset : ℤ)
    (config : DemandModelConfig) :
    (calculateDemandScore sinCycle date dayOffset config).demandScore
      = max 0 (min 100 (jsRound
          (50 + (weightedSum (calculateDemandScore sinCycle date dayOffset config).weights
                  (calculateDemandScore sinCycle date dayOffset config).components
                - config.baseOccupancy * 100)
            + config.externalSignalScore.getD 0)))
    ∧ (config.externalSignalScore = Option.none
        → (calculateDemandScore sinCycle date dayOffset config).externalSignalScore = 0) := by
  refine ⟨rfl, fun h => ?_⟩
  simp [calculateDemandScore, h]

/-- C1 witness: the default configuration supplies no external signal
score, and the result field is then 0. -/
theorem claim_C1_witness :
    (calculateDemandScore (fun _ => 0) ⟨0, 0, 0, ""⟩ 0
      { baseOccupancy := 0.72 }).externalSignalScore = 0 :=
  (claim_C1 (fun _ => 0) ⟨0, 0, 0, ""⟩ 0 { baseOccupancy := 0.72 }).2 rfl

/-- C7: for every day offset, event flag, event multiplier, trend factor,
and confidence configuration, `calculateConfidence` returns
`confidence = clamp(round((dataCompleteness*0.25 + eventSignalStrength*0.10
+ historicalStability*0.15 + trendConsistency*0.10 + dataVolumeScore*0.25
+ volatilityScore*0.15) * 100), 0, 100)`; the data-volume score is 0.2
with zero historical data points, and the volatility score is the neutral
0.65 when the occupancy volatility is not supplied. -/
theorem claim_C7 (jexp jlog : ℚ → ℚ) (dayOffset : ℚ) (hasEvent : Bool)
    (eventMultiplier trendFactor : ℚ) (config : ConfidenceConfig) :
    (calculateConfidence jexp jlog dayOffset hasEvent eventMultiplier
        trendFactor config).confidence
      = max 0 (min 100 (jsRound
          ((calcDataCompleteness jexp dayOffset (config.forecastHorizon.getD 30) * 0.25
            + calcEventSignalStrength hasEvent eventMultiplier * 0.10
            + config.historicalStability.getD 0.75 * 0.15
            + calcTrendConsistency trendFactor * 0.10
            + calcDataVolumeScore jlog (config.dataPointCount.getD 0)
                (config.minDataForFullConfidence.getD 90) * 0.25
            + calcVolatilityScore config.occupancyVolatility * 0.15) * 100)))
    ∧ (config.dataPointCount.getD 0 = 0
        → calcDataVolumeScore jlog (config.dataPointCount.getD 0)
            (config.minDataForFullConfidence.getD 90) = 0.2)
    ∧ (config.occupancyVolatility = Option.none
        → calcVolatilityScore config.occupancyVolatility = 0.65) := by
  refine ⟨rfl, fun h => ?_, fun h => ?_⟩
  · simp [calcDataVolumeScore, h]
  · simp [calcVolatilityScore, h]

/-- C7 witness: with the default configuration there are zero historical
data points and no supplied volatility, so the data-volume score is 0.2
and the volatility score is 0.65. -/
theorem claim_C7_witness :
    calcDataVolumeScore (fun _ => 0) 0 90 = 0.2
    ∧ calcVolatilityScore Option.none = 0.65 :=
  ⟨(claim_C7 (fun _ => 0) (fun _ => 0) 0 false 1 1 {}).2.1 rfl,
   (claim_C7 (fun _ => 0) (fun _ => 0) 0 false 1 1 {}).2.2 rfl⟩

/-- A rational that is an integer number of tenths; every signal impact
the market-signal layer produces has this shape, which is why the final
one-decimal rounding step of `getExternalSignalScore` is the identity. -/
def TenInt (x : ℚ) : Prop := ∃ k : ℤ, x * 10 = (k : ℚ)

lemma tenInt_add {x y : ℚ} (hx : TenInt x) (hy : TenInt y) : TenInt (x + y) := by
  obtain ⟨a, ha⟩ := hx
  obtain ⟨b, hb⟩ := hy
  exact ⟨a + b, by push_cast; rw [add_mul, ha, hb]⟩

lemma tenInt_max {x y : ℚ} (hx : TenInt x) (hy : TenInt y) : TenInt (Max.max x y) := by
  obtain ⟨a, ha⟩ := hx
  obtain ⟨b, hb⟩ := hy
  refine ⟨Max.max a b, ?_⟩
  rw [max_mul_of_nonneg _ _ (by norm_num : (0:ℚ) ≤ 10), ha, hb]
  push_cast
  rfl

lemma tenInt_min {x y : ℚ} (hx : TenInt x) (hy : TenInt y) : TenInt (Min.min x y) := by
  obtain ⟨a, ha⟩ := hx
  obtain ⟨b, hb⟩ := hy
  refine ⟨Min.min a b, ?_⟩
  rw [min_mul_of_nonneg _ _ (by norm_num : (0:ℚ) ≤ 10), ha, hb]
  push_cast
  rfl

lemma tenInt_round1 (x : ℚ) : TenInt (round1 x) :=
  ⟨jsRound (x * 10), by rw [round1]; field_simp⟩

lemma round1_eq_self {x : ℚ} (h : TenInt x) : round1 x = x := by
  obtain ⟨k, hk⟩ := h
  rw [round1, hk, jsRound_intCast, ← hk]
  exact mul_div_cancel_right₀ x (by norm_num)

lemma tenInt_computeWeatherImpact (w : Option WeatherData) (d : JsDate) :
    TenInt (computeWeatherImpact w d) := by
  unfold computeWeatherImpact
  cases w with
  | none => exact ⟨0, by norm_num⟩
  | some w =>
    dsimp only
    split_ifs <;>
      first
      | (refine ⟨-50, ?_⟩; norm_num [max_def, min_def]; done)
      | (refine ⟨20, ?_⟩; norm_num [max_def, min_def]; done)
      | (refine ⟨-30, ?_⟩; norm_num [max_def, min_def]; done)
      | (refine ⟨-10, ?_⟩; norm_num [max_def, min_def]; done)
      | (refine ⟨0, ?_⟩; norm_num [max_def, min_def]; done)

lemma tenInt_getWeatherImpact (todayMs : ℤ) (d : JsDate) (wd : List WeatherData) :
    TenInt (getWeatherImpact todayMs d wd) := by
  unfold getWeatherImpact
  split_ifs
  · exact ⟨0, by norm_num⟩
  · exact tenInt_computeWeatherImpact _ _

lemma tenInt_getEventImpact (jlog : ℚ → ℚ) (d : JsDate) (evs : List LocalEvent) :
    TenInt (getEventImpact jlog d evs) := by
  unfold getEventImpact
  dsimp only
  split_ifs
  · exact ⟨0, by norm_num⟩
  · exact tenInt_min ⟨100, by norm_num⟩ (tenInt_max ⟨0, by norm_num⟩ (tenInt_round1 _))

lemma tenInt_getCompetitorImpact (hotelPrice : ℚ) (rates : List CompetitorRate) :
    TenInt (getCompetitorImpact hotelPrice rates) := by
  unfold getCompetitorImpact
  dsimp only
  split_ifs
  · exact ⟨0, by norm_num⟩
  · exact ⟨0, by norm_num⟩
  · exact tenInt_max ⟨-50, by norm_num⟩ (tenInt_min ⟨50, by norm_num⟩ (tenInt_round1 _))

/-- C4: for every date, hotel price, competitor-rate list, weather series,
and event list, `getExternalSignalScore` returns
`totalScore = clamp(eventImpact + (weatherImpact+5) + (competitorImpact+5), 0, 20)`
(the one-decimal rounding in the source is the identity because every
impact is an integer number of tenths), so the total always lies in
[0, 20]; empty weather data or event data makes the corresponding impact
0, contributing the neutral shifted value 5 to the sum instead of failing
the computation. -/
theorem claim_C4 (jlog : ℚ → ℚ) (todayMs : ℤ) (date : JsDate) (hotelPrice : ℚ)
    (competitorRates : List CompetitorRate) (weatherData : List WeatherData)
    (events : List LocalEvent) :
    (getExternalSignalScore jlog todayMs date hotelPrice competitorRates
        weatherData events).totalScore
      = max 0 (min 20
          ((getExternalSignalScore jlog todayMs date hotelPrice competitorRates
              weatherData events).eventImpact
            + ((getExternalSignalScore jlog todayMs date hotelPrice competitorRates
                weatherData events).weatherImpact + 5)
            + ((getExternalSignalScore jlog todayMs date hotelPrice competitorRates
                weatherData events).competitorImpact + 5)))
    ∧ 0 ≤ (getExternalSignalScore jlog todayMs date hotelPrice competitorRates
        weatherData events).totalScore
    ∧ (getExternalSignalScore jlog todayMs date hotelPrice competitorRates
        weatherData events).totalScore ≤ 20
    ∧ (weatherData = []
        → (getExternalSignalScore jlog todayMs date hotelPrice competitorRates
            weatherData events).weatherImpact = 0)
    ∧ (events = []
        → (getExternalSignalScore jlog todayMs date hotelPrice competitorRates
            weatherData events).eventImpact = 0) := by
  have hE := tenInt_getEventImpact jlog date events
  have hW := tenInt_getWeatherImpact todayMs date weatherData
  have h5 : TenInt 5 := ⟨50, by norm_num⟩
  have hC := tenInt_getCompetitorImpact hotelPrice competitorRates
  have hraw : TenInt (getEventImpact jlog date events
      + (getWeatherImpact todayMs date weatherData + 5)
      + (getCompetitorImpact hotelPrice competitorRates + 5)) :=
    tenInt_add (tenInt_add hE (tenInt_add hW h5)) (tenInt_add hC h5)
  refine ⟨?_, ?_, ?_, fun h => ?_, fun h => ?_⟩
  · simp only [getExternalSignalScore]
    rw [round1_eq_self hraw]
  · simp only [getExternalSignalScore]
    exact le_max_left _ _
  · simp only [getExternalSignalScore]
    exact max_le (by norm_num) (min_le_left _ _)
  · subst h
    simp only [getExternalSignalScore]
    simp [getWeatherImpact]
  · subst h
    simp only [getExternalSignalScore]
    simp [getEventImpact]

/-- C4 witness: with empty weather and event data both impacts are 0. -/
theorem claim_C4_witness :
    (getExternalSignalScore (fun _ => 0) 0 ⟨0, 0, 0, ""⟩ 0 [] [] []).weatherImpact = 0
    ∧ (getExternalSignalScore (fun _ => 0) 0 ⟨0, 0, 0, ""⟩ 0 [] [] []).eventImpact = 0 :=
  ⟨(claim_C4 (fun _ => 0) 0 ⟨0, 0, 0, ""⟩ 0 [] [] []).2.2.2.1 rfl,
   (claim_C4 (fun _ => 0) 0 ⟨0, 0, 0, ""⟩ 0 [] [] []).2.2.2.2 rfl⟩

/-- A concrete date for the clock-dependence counterexample: epoch
millisecond 864000000 (midnight of day 10), falling on a Saturday. -/
def cDate : JsDate := ⟨864000000, ⟨0, by norm_num⟩, ⟨6, by norm_num⟩, "x"⟩

/-- A concrete mild, dry weather record. -/
def cWeather : WeatherData := ⟨20, 0, "Clear"⟩

lemma cWeatherImpact_day10 : getWeatherImpact 864000000 cDate [cWeather] = 2 := by
  unfold getWeatherImpact
  have hlen : ([cWeather] : List WeatherData).length = 1 := rfl
  rw [if_neg (by rw [hlen]; norm_num)]
  have hoff : Int.floor (((cDate.ms - 864000000 : ℤ) : ℚ) / 86400000) = 0 := by
    have : ((cDate.ms - 864000000 : ℤ) : ℚ) / 86400000 = 0 := by
      norm_num [cDate]
    rw [this, Int.floor_zero]
  rw [hoff, hlen]
  norm_num
  norm_num [computeWeatherImpact, cDate, cWeather, max_def, min_def]
  exact ⟨by decide, by decide, by decide⟩

lemma cWeatherImpact_day11 : getWeatherImpact 950400000 cDate [cWeather] = 0 := by
  unfold getWeatherImpact
  have hlen : ([cWeather] : List WeatherData).length = 1 := rfl
  rw [if_neg (by rw [hlen]; norm_num)]
  have hoff : Int.floor (((cDate.ms - 950400000 : ℤ) : ℚ) / 86400000) = -1 := by
    have h : ((cDate.ms - 950400000 : ℤ) : ℚ) / 86400000 = -1 := by
      norm_num [cDate]
    rw [h, Int.floor_eq_iff]
    push_cast
    norm_num
  rw [hoff, hlen]
  norm_num
  rfl

/-- C3 counterexample: `getWeatherImpact` (and through it
`getExternalSignalScore`) reads the current wall clock; with one mild
Saturday weather record and identical explicit arguments, running the
aggregation while the clock reads day 10 gives weather impact 2 (total
12), while running it one day later gives weather impact 0 (total 10) —
identical explicit inputs, different outputs. -/
theorem claim_C3_counterexample :
    getExternalSignalScore (fun _ => 0) 864000000 cDate 0 [] [cWeather] []
      ≠ getExternalSignalScore (fun _ => 0) 950400000 cDate 0 [] [cWeather] [] := by
  intro h
  have hw := congrArg ExternalSignalResult.weatherImpact h
  simp only [getExternalSignalScore] at hw
  rw [cWeatherImpact_day10, cWeatherImpact_day11] at hw
  norm_num at hw

/-- C3 amended: every component of the market-signal layer other than the
weather-index selection is a pure function of its explicit arguments; in
particular, with an empty weather series `getExternalSignalScore` is
independent of the wall-clock reading, so two calls with identical
explicit arguments made at different times return identical results. -/
theorem claim_C3 (jlog : ℚ → ℚ) (todayMs1 todayMs2 : ℤ) (date : JsDate)
    (hotelPrice : ℚ) (competitorRates : List CompetitorRate)
    (events : List LocalEvent) :
    getExternalSignalScore jlog todayMs1 date hotelPrice competitorRates [] events
      = getExternalSignalScore jlog todayMs2 date hotelPrice competitorRates [] events := rfl

/-- C5 counterexample: the claim quantifies over every elasticity
configuration, but a negative non-linear coefficient reverses the model:
with `elasticityK = -0.004`, base occupancy 50 and recommended price 100,
a manual price of 200 projects occupancy 90 while the recommended price
itself projects 50, so raising the price raised the projection. -/
theorem claim_C5_counterexample :
    ¬ ((calculateElasticity 50 100 200 { elasticityK := some (-0.004) }).projectedOccupancy
        ≤ (calculateElasticity 50 100 100 { elasticityK := some (-0.004) }).projectedOccupancy) := by
  simp only [calculateElasticity]
  norm_num
  rw [show jsRound (90 : ℚ) = 90 from jsRound_eq _ _ (by norm_num) (by norm_num),
    show jsRound (50 : ℚ) = 50 from jsRound_eq _ _ (by norm_num) (by norm_num)]
  norm_num

/-- C5 amended: the elasticity projection is antitone in the manual price
above the recommendation for every configuration whose response
coefficient points the intended way — a nonnegative `elasticityK` in the
(default) non-linear mode, a nonpositive `elasticityCoefficient` in the
legacy linear mode.  The unrestricted claim fails on configurations with
an inverted coefficient. -/
theorem claim_C5 (baseOccupancy recommendedPrice p1 p2 : ℚ) (config : ElasticityConfig)
    (hrec : 0 < recommendedPrice) (h1 : recommendedPrice ≤ p1) (h2 : p1 ≤ p2)
    (hcfg : if config.useNonLinear.getD true then 0 ≤ config.elasticityK.getD 0.004
      else config.elasticityCoefficient.getD (-0.4) ≤ 0) :
    (calculateElasticity baseOccupancy recommendedPrice p2 config).projectedOccupancy
      ≤ (calculateElasticity baseOccupancy recommendedPrice p1 config).projectedOccupancy := by
  have hne : recommendedPrice ≠ 0 := ne_of_gt hrec
  have hpcp1 : 0 ≤ (p1 - recommendedPrice) / recommendedPrice * 100 :=
    mul_nonneg (div_nonneg (by linarith) hrec.le) (by norm_num)
  have hpcp2 : 0 ≤ (p2 - recommendedPrice) / recommendedPrice * 100 :=
    mul_nonneg (div_nonneg (by linarith) hrec.le) (by norm_num)
  have hmono : (p1 - recommendedPrice) / recommendedPrice * 100
      ≤ (p2 - recommendedPrice) / recommendedPrice * 100 :=
    mul_le_mul_of_nonneg_right ((div_le_div_iff_of_pos_right hrec).mpr (by linarith))
      (by norm_num)
  have hchange : (if config.useNonLinear.getD true then
        (if 0 ≤ (p2 - recommendedPrice) / recommendedPrice * 100 then (-1 : ℚ) else 1)
          * config.elasticityK.getD 0.004
          * ((p2 - recommendedPrice) / recommendedPrice * 100)
          * ((p2 - recommendedPrice) / recommendedPrice * 100)
      else config.elasticityCoefficient.getD (-0.4)
        * ((p2 - recommendedPrice) / recommendedPrice * 100))
      ≤ (if config.useNonLinear.getD true then
        (if 0 ≤ (p1 - recommendedPrice) / recommendedPrice * 100 then (-1 : ℚ) else 1)
          * config.elasticityK.getD 0.004
          * ((p1 - recommendedPrice) / recommendedPrice * 100)
          * ((p1 - recommendedPrice) / recommendedPrice * 100)
      else config.elasticityCoefficient.getD (-0.4)
        * ((p1 - recommendedPrice) / recommendedPrice * 100)) := by
    cases hb : config.useNonLinear.getD true with
    | true =>
      rw [hb] at hcfg
      simp only [if_true] at hcfg
      have hk : 0 ≤ config.elasticityK.getD 0.004 := hcfg
      simp only [eq_self_iff_true, if_true, if_pos hpcp1, if_pos hpcp2]
      have key := mul_le_mul (mul_le_mul_of_nonneg_left hmono hk) hmono hpcp1
        (mul_nonneg hk hpcp2)
      nlinarith [key]
    | false =>
      rw [hb] at hcfg
      simp only [if_false, Bool.false_eq_true] at hcfg ⊢
      exact mul_le_mul_of_nonpos_left hmono hcfg
  have hraw := add_le_add_left hchange baseOccupancy
  have hround := jsRound_mono hraw
  simp only [calculateElasticity, if_neg hne]
  exact max_le_max (le_refl _) (min_le_min (le_refl _) (Int.cast_le.mpr hround))

/-- C5 witness: with the default configuration (non-linear mode, the
default nonnegative coefficient) and recommended price 100, the manual
price 120 projects no more occupancy than the manual price 110. -/
theorem claim_C5_witness :
    (calculateElasticity 70 100 120 {}).projectedOccupancy
      ≤ (calculateElasticity 70 100 110 {}).projectedOccupancy :=
  claim_C5 70 100 110 120 {} (by norm_num) (by norm_num) (by norm_num) (by norm_num)

lemma jsRound_zero : jsRound (0 : ℚ) = 0 := jsRound_eq _ _ (by norm_num) (by norm_num)

lemma jsRound_clamp_bounds (fl cl x : ℚ) (hfc : fl ≤ cl) :
    fl - 1/2 ≤ (jsRound (max fl (min cl x)) : ℚ)
    ∧ (jsRound (max fl (min cl x)) : ℚ) ≤ cl + 1/2 := by
  constructor
  · have h1 : fl ≤ max fl (min cl x) := le_max_left _ _
    have h2 := lt_jsRound (max fl (min cl x))
    linarith
  · have h1 : max fl (min cl x) ≤ cl := max_le hfc (min_le_left _ _)
    have h2 := jsRound_le (max fl (min cl x))
    linarith

/-- C2 counterexample: with base price 3 and the default floor multiplier
0.70 the floor is 2.1, but demand score 0 gives raw price 2.4, which the
final integer rounding takes to 2 — strictly below the floor, so the
recommended price leaves the claimed interval. -/
theorem claim_C2_counterexample :
    ¬ (({ basePrice := 3 } : PricingConfig).basePrice
          * ({ basePrice := 3 } : PricingConfig).floorMultiplier.getD 0.70
        ≤ ((calculatePrice 0 { basePrice := 3 }).recommendedPrice : ℚ)
      ∧ ((calculatePrice 0 { basePrice := 3 }).recommendedPrice : ℚ)
        ≤ ({ basePrice := 3 } : PricingConfig).basePrice
          * ({ basePrice := 3 } : PricingConfig).ceilingMultiplier.getD 1.80) := by
  simp only [calculatePrice, applySaturation, demandToMultiplier]
  norm_num [max_def, min_def]
  rw [show jsRound ((12 : ℚ) / 5) = 2 from jsRound_eq _ _ (by norm_num) (by norm_num)]
  norm_num

/-- C2 amended: whenever the floor does not exceed the ceiling, the
recommended price lies within the claimed interval enlarged by the
half-unit slack of the final integer rounding (the clamp is applied
before rounding, so the bound can be exceeded by at most half a currency
unit, and no more). -/
theorem claim_C2 (demandScore : ℚ) (config : PricingConfig)
    (hfc : config.basePrice * config.floorMultiplier.getD 0.70
      ≤ config.basePrice * config.ceilingMultiplier.getD 1.80) :
    config.basePrice * config.floorMultiplier.getD 0.70 - 1/2
      ≤ ((calculatePrice demandScore config).recommendedPrice : ℚ)
    ∧ ((calculatePrice demandScore config).recommendedPrice : ℚ)
      ≤ config.basePrice * config.ceilingMultiplier.getD 1.80 + 1/2 := by
  simp only [calculatePrice]
  exact jsRound_clamp_bounds _ _ _ hfc

/-- C2 witness: scenario A of the specification — base price 120, demand
score 60, default bounds. -/
theorem claim_C2_witness :
    (120 : ℚ) * 0.70 - 1/2 ≤ ((calculatePrice 60 { basePrice := 120 }).recommendedPrice : ℚ)
    ∧ ((calculatePrice 60 { basePrice := 120 }).recommendedPrice : ℚ)
      ≤ (120 : ℚ) * 1.80 + 1/2 :=
  claim_C2 60 { basePrice := 120 } (by norm_num)

/-- A pricing configuration with negative multipliers, allowed by the
hypotheses of claim C10. -/
def negMultConfig : PricingConfig :=
  { basePrice := 10, floorMultiplier := some (-2), ceilingMultiplier := some (-1) }

/-- C10 counterexample: the stated hypotheses allow negative price
multipliers; with base price 10, floor multiplier -2 and ceiling
multiplier -1 the recommended price is -10 while the quoted range is
[-8, -12], which does not contain it. -/
theorem claim_C10_counterexample :
    ¬ ((calculatePrice 0 negMultConfig).minPrice
        ≤ (calculatePrice 0 negMultConfig).recommendedPrice
      ∧ (calculatePrice 0 negMultConfig).recommendedPrice
        ≤ (calculatePrice 0 negMultConfig).maxPrice) := by
  simp only [negMultConfig]
  simp only [calculatePrice, applySaturation, demandToMultiplier]
  norm_num [max_def, min_def]
  rw [show jsRound (-10 : ℚ) = -10 from jsRound_eq _ _ (by norm_num) (by norm_num)]
  norm_num [max_def, min_def]
  rw [show jsRound (-(17/2) : ℚ) = -8 from jsRound_eq _ _ (by norm_num) (by norm_num),
    show jsRound (-12 : ℚ) = -12 from jsRound_eq _ _ (by norm_num) (by norm_num)]
  norm_num

lemma spread_bounds (fl cl x m M : ℚ) (hm : 0 ≤ m) (hM : 0 ≤ M) (h0 : 0 ≤ fl)
    (hfc : fl ≤ cl) :
    jsRound (max fl ((jsRound (max fl (min cl x)) : ℚ) * (1 - m)))
      ≤ jsRound (max fl (min cl x))
    ∧ jsRound (max fl (min cl x))
      ≤ jsRound (min cl ((jsRound (max fl (min cl x)) : ℚ) * (1 + M))) := by
  have hr0 : 0 ≤ jsRound (max fl (min cl x)) := by
    have h := jsRound_mono (le_trans h0 (le_max_left fl (min cl x)))
    rwa [jsRound_zero] at h
  have hrq : (0 : ℚ) ≤ (jsRound (max fl (min cl x)) : ℚ) := Int.cast_nonneg.mpr hr0
  constructor
  · rw [jsRound_mono.map_max]
    apply max_le
    · exact jsRound_mono (le_max_left _ _)
    · have h1 : (jsRound (max fl (min cl x)) : ℚ) * (1 - m)
          ≤ (jsRound (max fl (min cl x)) : ℚ) := by nlinarith
      have h2 := jsRound_mono h1
      rwa [jsRound_intCast] at h2
  · rw [jsRound_mono.map_min]
    apply le_min
    · exact jsRound_mono (max_le hfc (min_le_left _ _))
    · have h1 : (jsRound (max fl (min cl x)) : ℚ)
          ≤ (jsRound (max fl (min cl x)) : ℚ) * (1 + M) := by nlinarith
      have h2 := jsRound_mono h1
      rwa [jsRound_intCast] at h2

/-- C10 amended: with nonnegative spreads, a nonnegative base price, a
nonnegative floor multiplier, and floor not exceeding ceiling, the quoted
safe price range always contains the recommended price.  The claim as
stated fails when the floor multiplier is negative. -/
theorem claim_C10 (demandScore : ℚ) (config : PricingConfig)
    (hms : 0 ≤ config.minSpread.getD 0.15) (hMs : 0 ≤ config.maxSpread.getD 0.20)
    (hbp : 0 ≤ config.basePrice) (hfl : 0 ≤ config.floorMultiplier.getD 0.70)
    (hfc : config.floorMultiplier.getD 0.70 ≤ config.ceilingMultiplier.getD 1.80) :
    (calculatePrice demandScore config).minPrice
      ≤ (calculatePrice demandScore config).recommendedPrice
    ∧ (calculatePrice demandScore config).recommendedPrice
      ≤ (calculatePrice demandScore config).maxPrice := by
  simp only [calculatePrice]
  exact spread_bounds _ _ _ _ _ hms hMs (mul_nonneg hbp hfl)
    (mul_le_mul_of_nonneg_left hfc hbp)

/-- C10 witness: base price 100 with all defaults at demand score 60. -/
theorem claim_C10_witness :
    (calculatePrice 60 { basePrice := 100 }).minPrice
      ≤ (calculatePrice 60 { basePrice := 100 }).recommendedPrice
    ∧ (calculatePrice 60 { basePrice := 100 }).recommendedPrice
      ≤ (calculatePrice 60 { basePrice := 100 }).maxPrice :=
  claim_C10 60 { basePrice := 100 } (by norm_num) (by norm_num) (by norm_num)
    (by norm_num) (by norm_num)

/-- A pricing configuration with saturation threshold 93 and projected
occupancy 96. -/
def satConfig9396 : PricingConfig :=
  { basePrice := 100, saturationThreshold := some 93, projectedOccupancy := some 96 }

/-- C6 counterexample: the reported `saturationBoost` field is rounded to
three decimals, so it is not the exact claimed quotient: with threshold
93 and projected occupancy 96 the formula gives 3/35 = 0.0857…, but the
field reports 0.086. -/
theorem claim_C6_counterexample :
    (calculatePrice 0 satConfig9396).saturationBoost
      ≠ ((96 : ℚ) - 93) / (100 - 93) * 0.20 := by
  simp only [satConfig9396, calculatePrice, applySaturation, demandToMultiplier]
  norm_num [round3]
  rw [show jsRound ((600 : ℚ) / 7) = 86 from jsRound_eq _ _ (by norm_num) (by norm_num)]
  norm_num

/-- C6 amended: when a projected occupancy above the (sub-100) saturation
threshold is supplied, `calculatePrice` reports saturation, tier
`saturation`, and a `saturationBoost` field equal to
`(projectedOccupancy - threshold)/(100 - threshold) × 0.20` rounded to
three decimals, and the unrounded boost multiplies the tier multiplier in
the recommended price. -/
theorem claim_C6 (demandScore : ℚ) (config : PricingConfig) (po : ℚ)
    (hpo : config.projectedOccupancy = some po)
    (_hthr : config.saturationThreshold.getD 95 < 100)
    (hgt : config.saturationThreshold.getD 95 < po) :
    (calculatePrice demandScore config).isSaturated = true
    ∧ (calculatePrice demandScore config).pricingTier = PricingTier.saturation
    ∧ (calculatePrice demandScore config).saturationBoost
        = round3 ((po - config.saturationThreshold.getD 95)
            / (100 - config.saturationThreshold.getD 95) * 0.20)
    ∧ (calculatePrice demandScore config).recommendedPrice
        = jsRound (max (config.basePrice * config.floorMultiplier.getD 0.70)
            (min (config.basePrice * config.ceilingMultiplier.getD 1.80)
              (config.basePrice * ((demandToMultiplier demandScore).1
                * (1 + (po - config.saturationThreshold.getD 95)
                    / (100 - config.saturationThreshold.getD 95) * 0.20))))) := by
  simp only [calculatePrice, applySaturation, hpo]
  simp only [if_pos hgt]
  exact ⟨trivial, trivial, trivial, trivial⟩

/-- A pricing configuration with projected occupancy 98 and the default
saturation threshold 95. -/
def satConfig98 : PricingConfig :=
  { basePrice := 100, projectedOccupancy := some 98 }

/-- C6 witness: scenario C of the specification — projected occupancy 98
against the default threshold 95 reports saturation with boost
round3(0.6 × 0.20) = 0.12. -/
theorem claim_C6_witness :
    (calculatePrice 90 satConfig98).isSaturated = true
    ∧ (calculatePrice 90 satConfig98).pricingTier = PricingTier.saturation
    ∧ (calculatePrice 90 satConfig98).saturationBoost
        = round3 (((98 : ℚ) - 95) / (100 - 95) * 0.20) :=
  ⟨(claim_C6 90 satConfig98 98 rfl (by norm_num [satConfig98])
      (by norm_num [satConfig98])).1,
   (claim_C6 90 satConfig98 98 rfl (by norm_num [satConfig98])
      (by norm_num [satConfig98])).2.1,
   (claim_C6 90 satConfig98 98 rfl (by norm_num [satConfig98])
      (by norm_num [satConfig98])).2.2.1⟩

lemma calculatePrice_tier_no_saturation (demandScore : ℚ) (config : PricingConfig)
    (hsat : ∀ po ∈ config.projectedOccupancy, po ≤ config.saturationThreshold.getD 95) :
    (calculatePrice demandScore config).pricingTier = (demandToMultiplier demandScore).2 := by
  simp only [calculatePrice, applySaturation]
  cases hpo : config.projectedOccupancy with
  | none => rfl
  | some po =>
    have hle : po ≤ config.saturationThreshold.getD 95 := hsat po (by simp [hpo])
    simp only [if_neg (not_lt.mpr hle)]

/-- C8: when the saturation override is not triggered, `calculatePrice`
assigns demand score 85 exactly to the tier `premium`, and every demand
score strictly greater than 85 to the tier `surge`, whose multiplier is
capped at its demand-score-100 value. -/
theorem claim_C8 (config : PricingConfig)
    (hsat : ∀ po ∈ config.projectedOccupancy, po ≤ config.saturationThreshold.getD 95) :
    (calculatePrice 85 config).pricingTier = PricingTier.premium
    ∧ ∀ ds : ℚ, 85 < ds →
        (calculatePrice ds config).pricingTier = PricingTier.surge
        ∧ (demandToMultiplier ds).1 ≤ (demandToMultiplier 100).1 := by
  constructor
  · rw [calculatePrice_tier_no_saturation 85 config hsat]
    unfold demandToMultiplier
    rw [if_neg (by norm_num), if_neg (by norm_num), if_pos (by norm_num)]
  · intro ds hds
    have h50 : ¬ ds < 50 := not_lt.mpr (by linarith)
    have h70 : ¬ ds ≤ 70 := not_le.mpr (by linarith)
    have h85 : ¬ ds ≤ 85 := not_le.mpr hds
    constructor
    · rw [calculatePrice_tier_no_saturation ds config hsat]
      unfold demandToMultiplier
      rw [if_neg h50, if_neg h70, if_neg h85]
    · unfold demandToMultiplier
      rw [if_neg h50, if_neg h70, if_neg h85,
        if_neg (by norm_num : ¬ (100:ℚ) < 50), if_neg (by norm_num : ¬ (100:ℚ) ≤ 70),
        if_neg (by norm_num : ¬ (100:ℚ) ≤ 85)]
      simp only
      have hmin : Min.min ((ds - 85) / 15) 1 ≤ Min.min ((100 - 85 : ℚ) / 15) 1 := by
        rw [show Min.min ((100 - 85 : ℚ) / 15) 1 = 1 by norm_num]
        exact min_le_right _ _
      nlinarith [hmin]

/-- C8 witness: with base price 100 and no projected occupancy supplied,
demand score 85 prices in tier `premium` and demand score 90 in `surge`. -/
theorem claim_C8_witness :
    (calculatePrice 85 { basePrice := 100 }).pricingTier = PricingTier.premium
    ∧ (calculatePrice 90 { basePrice := 100 }).pricingTier = PricingTier.surge :=
  ⟨(claim_C8 { basePrice := 100 } (by simp)).1,
   ((claim_C8 { basePrice := 100 } (by simp)).2 90 (by norm_num)).1⟩

/-- C9: for every base occupancy, manual price, and elasticity
configuration, `calculateElasticity` with `recommendedPrice = 0` returns
the base occupancy unchanged (bypassing the occupancy clamp and
rounding) with zero occupancy and price deltas; the embedding is a total
function, so the degenerate input does not raise. -/
theorem claim_C9 (baseOccupancy manualPrice : ℚ) (config : ElasticityConfig) :
    (calculateElasticity baseOccupancy 0 manualPrice config).projectedOccupancy
        = baseOccupancy
    ∧ (calculateElasticity baseOccupancy 0 manualPrice config).occupancyChange = 0
    ∧ (calculateElasticity baseOccupancy 0 manualPrice config).priceChangePercent = 0 := by
  refine ⟨?_, ?_, ?_⟩ <;> simp [calculateElasticity]

end Qonaq



